import Mathlib

/-
Verification of the smithy-go pointer-helper generator (ptr/generate.go).

Part 1 models the runtime behaviour of the GENERATED helper functions.
Go pointers are modelled by an explicit heap: a pointer is an index into a
list of allocated cells, and the nil pointer is Option.none.  Loop
variables of a range loop are modelled with the per-loop semantics of the
Go language version this repository targets (before Go 1.22 the loop
variable of a range loop is a single variable shared by all iterations,
so taking its address yields the same cell every iteration).

Part 2 models the generator itself: the type catalogue, symbol and name
resolution, and the template rendering, translated from ptr/generate.go.
-/

namespace SmithyPtr

/-- A heap of allocated cells. A Go pointer to a value of type alpha is an
index into cells; the nil pointer is modelled as Option.none elsewhere. -/
structure Heap (α : Type) where
  cells : List α
deriving DecidableEq

/-- Allocate a fresh cell holding v, returning the new heap and the address. -/
def Heap.alloc {α : Type} (h : Heap α) (v : α) : Heap α × Nat :=
  (⟨h.cells ++ [v]⟩, h.cells.length)

/-- Overwrite the cell at address a with v. -/
def Heap.write {α : Type} (h : Heap α) (a : Nat) (v : α) : Heap α :=
  ⟨h.cells.set a v⟩

/-- Read the cell at address a. -/
def Heap.read {α : Type} (h : Heap α) (a : Nat) : Option α :=
  h.cells[a]?

/-- A possibly-nil Go pointer: none is nil, some a points at heap cell a. -/
abbrev GoPtr := Option Nat

/-- Generated function X, from the template named to pointer func:
the parameter v is a fresh copy of the argument, and its address is
returned, so a new cell holding v is allocated. The result is never nil. -/
def toPtrFn {α : Type} (h : Heap α) (v : α) : Heap α × Nat :=
  h.alloc v

/-- Generated function ToX, from the template named from pointer func:
a nil pointer yields the zero value z of the scalar type (the named result
v is left at its zero value), otherwise the pointee is copied out.  The
getD fallback is unreachable for pointers produced by this program, since
every allocated address stays valid. -/
def fromPtrFn {α : Type} (z : α) (h : Heap α) (p : GoPtr) : α :=
  match p with
  | none => z
  | some a => (h.read a).getD z

/-- Loop of the generated XSlice function. The address a is the single
cell of the range loop variable v: each iteration assigns the current
element to that one cell and appends its address to the result. -/
def toPtrSliceLoop {α : Type} (h : Heap α) (a : Nat) : List α → Heap α × List GoPtr
  | [] => (h, [])
  | v :: rest =>
    let h1 := h.write a v
    let r := toPtrSliceLoop h1 a rest
    (r.1, some a :: r.2)

/-- Generated function XSlice: ps is made with make, hence present (some)
even for a nil (none) input; ranging over a nil slice runs zero
iterations.  For a non-empty input one loop-variable cell is allocated,
initialised at the zero value default, and every iteration stores the
address of that same cell. -/
def toPtrSliceFn {α : Type} [Inhabited α] (h : Heap α) (vs : Option (List α)) :
    Heap α × Option (List GoPtr) :=
  match vs.getD [] with
  | [] => (h, some [])
  | l =>
    let p := h.alloc (default : α)
    let r := toPtrSliceLoop p.1 p.2 l
    (r.1, some r.2)

/-- Loop of the generated XMap function, over the entries of the map in
some iteration order (Go map iteration order is unspecified; the model
iterates the association list in list order, and every property proved or
refuted below holds for every iteration order). -/
def toPtrMapLoop {α : Type} (h : Heap α) (a : Nat) :
    List (String × α) → Heap α × List (String × GoPtr)
  | [] => (h, [])
  | (k, v) :: rest =>
    let h1 := h.write a v
    let r := toPtrMapLoop h1 a rest
    (r.1, (k, some a) :: r.2)

/-- Generated function XMap: the result map is made with make, hence
present (some) even for a nil (none) input; as in XSlice the range loop
variable is one shared cell whose address is stored for every key. -/
def toPtrMapFn {α : Type} [Inhabited α] (h : Heap α) (vs : Option (List (String × α))) :
    Heap α × Option (List (String × GoPtr)) :=
  match vs.getD [] with
  | [] => (h, some [])
  | l =>
    let p := h.alloc (default : α)
    let r := toPtrMapLoop p.1 p.2 l
    (r.1, some r.2)

/-- Generated function ToXSlice: elementwise ToX with zero value z; the
result is made with make, hence present (some) even for nil input. -/
def fromPtrSliceFn {α : Type} (z : α) (h : Heap α) (vs : Option (List GoPtr)) :
    Option (List α) :=
  some ((vs.getD []).map (fun v => fromPtrFn z h v))

/-- Generated function ToXMap: ToX applied to every value of the map; the
result is made with make, hence present (some) even for nil input. -/
def fromPtrMapFn {α : Type} (z : α) (h : Heap α) (vs : Option (List (String × GoPtr))) :
    Option (List (String × α)) :=
  some ((vs.getD []).map (fun kv => (kv.1, fromPtrFn z h kv.2)))

/-- The Import descriptor of generate.go: an import path and an optional
alias (empty string means no alias, as in Go). -/
structure Import where
  Path : String
  Alias : String
deriving DecidableEq

/-- strings.Split with the single-character separator slash, on the
character list of the string: splitting the empty string gives one empty
part, a separator ends the current part and starts a new one. -/
def splitSlash : List Char → List (List Char)
  | [] => [[]]
  | c :: cs =>
    if c = '/' then [] :: splitSlash cs
    else
      match splitSlash cs with
      | [] => [[c]]
      | w :: ws => (c :: w) :: ws

/-- Import.Package of generate.go: the alias if non-empty, otherwise the
last slash-separated segment of the path, otherwise the empty string.
The parts list of splitSlash is never empty, so its last element is the
element strings.Split makes the Go code index at len minus one. -/
def Import.Package (i : Import) : String :=
  if i.Alias.length ≠ 0 then i.Alias
  else if i.Path.length ≠ 0 then
    ((splitSlash i.Path.data).map String.mk).getLastD ""
  else ""

/-- One catalogue entry of generate.go: the Go field named Type is ty
here (Type is a keyword in Lean), the field named Import is imp. -/
structure Scalar where
  ty : String
  imp : Option Import
deriving DecidableEq

/-- ASCII model of the separator test used by strings.Title: ASCII
alphanumerics and the underscore are not separators, every other ASCII
character is.  All catalogue names and all inputs considered below are
ASCII, so the non-ASCII branch of the Go function is never exercised. -/
def isSeparator (c : Char) : Bool :=
  if ('0' ≤ c ∧ c ≤ '9') ∨ ('a' ≤ c ∧ c ≤ 'z') ∨ ('A' ≤ c ∧ c ≤ 'Z') ∨ c = '_' then false
  else true

/-- Character map of strings.Title: a character directly preceded by a
separator (prev) is mapped to its title case, the rest are unchanged; for
ASCII, title case coincides with upper case. -/
def titleMap (prev : Char) : List Char → List Char
  | [] => []
  | c :: cs =>
    if isSeparator prev then c.toUpper :: titleMap c cs
    else c :: titleMap c cs

/-- strings.Title: the first character of every separator-delimited word
is title-cased; the initial previous character is a space, a separator,
so the first character of the string is always title-cased. -/
def stringsTitle (s : String) : String :=
  String.mk (titleMap ' ' s.data)

/-- Scalar.Name of generate.go: strings.Title applied to the type name,
used to build the exported function names. -/
def Scalar.Name (t : Scalar) : String :=
  stringsTitle t.ty

/-- Scalar.Symbol of generate.go: the package-qualified type name when
the entry carries an import, the bare type name otherwise. -/
def Scalar.Symbol (t : Scalar) : String :=
  match t.imp with
  | some i => i.Package ++ "." ++ t.ty
  | none => t.ty

/-- A catalogue is an ordered list of scalars, as in generate.go. -/
abbrev Scalars := List Scalar

/-- Scalars.Imports of generate.go: the imports of all entries that have
one, in catalogue order, with NO de-duplication (the Go loop appends
every non-nil Import pointer). -/
def Scalars.Imports (ts : Scalars) : List Import :=
  ts.filterMap (fun t => t.imp)

/-- The hard-coded catalogue of generate.go (the types variable of main). -/
def types : Scalars :=
  [⟨"string", none⟩,
   ⟨"int", none⟩,
   ⟨"int8", none⟩,
   ⟨"int16", none⟩,
   ⟨"int32", none⟩,
   ⟨"int64", none⟩,
   ⟨"uint", none⟩,
   ⟨"uint8", none⟩,
   ⟨"uint16", none⟩,
   ⟨"uint32", none⟩,
   ⟨"uint64", none⟩,
   ⟨"float32", none⟩,
   ⟨"float64", none⟩,
   ⟨"Time", some ⟨"time", ""⟩⟩]

/-- One rendered line of the reference block of the header template: each
element of Scalars.Imports yields its quoted path on a line of its own. -/
def importLines (ts : Scalars) : List String :=
  (Scalars.Imports ts).map (fun i => "\t\"" ++ i.Path ++ "\"\n")

/-- The header template: generated-file marker, package clause and the
reference block built from importLines. -/
def renderHeader (ts : Scalars) : String :=
  "// Code generated by smithy-go/ptr/generate.go DO NOT EDIT.\n"
    ++ "package ptr\n\n"
    ++ "import (\n"
    ++ String.join (importLines ts)
    ++ ")\n\n"

/-- The template named to pointer func, rendered for one catalogue entry. -/
def renderToPointerFunc (t : Scalar) : String :=
  "// " ++ t.Name ++ " returns a pointer value for the " ++ t.Symbol
    ++ " value passed in.\n"
    ++ "func " ++ t.Name ++ "(v " ++ t.Symbol ++ ") *" ++ t.Symbol ++ " \x7b\n"
    ++ "\treturn &v\n"
    ++ "\x7d\n\n"

/-- The template named to pointers func (XSlice and XMap), rendered for
one catalogue entry. -/
def renderToPointersFunc (t : Scalar) : String :=
  "// " ++ t.Name ++ "Slice returns a slice of " ++ t.Symbol
    ++ " pointers from the values passed in.\n"
    ++ "func " ++ t.Name ++ "Slice(vs []" ++ t.Symbol ++ ") []*" ++ t.Symbol ++ " \x7b\n"
    ++ "\tps := make([]*" ++ t.Symbol ++ ", len(vs))\n"
    ++ "\tfor i, v := range vs \x7b\n"
    ++ "\t\tps[i] = &v\n"
    ++ "\t\x7d\n\n"
    ++ "\treturn ps\n"
    ++ "\x7d\n\n"
    ++ "// " ++ t.Name ++ "Map returns a map of " ++ t.Symbol
    ++ " pointers from the values passed in.\n"
    ++ "func " ++ t.Name ++ "Map(vs map[string]" ++ t.Symbol ++ ") map[string]*"
    ++ t.Symbol ++ " \x7b\n"
    ++ "\tps := make(map[string]*" ++ t.Symbol ++ ", len(vs))\n"
    ++ "\tfor k, v := range vs \x7b\n"
    ++ "\t\tps[k] = &v\n"
    ++ "\t\x7d\n\n"
    ++ "\treturn ps\n"
    ++ "\x7d\n\n"

/-- The template named from pointer func, rendered for one catalogue entry. -/
def renderFromPointerFunc (t : Scalar) : String :=
  "// To" ++ t.Name ++ " returns " ++ t.Symbol
    ++ " value dereferenced if the passed in pointer was not nil. Returns a "
    ++ t.Symbol ++ " zero value if the pointer was nil.\n"
    ++ "func To" ++ t.Name ++ "(p *" ++ t.Symbol ++ ") (v " ++ t.Symbol ++ ") \x7b\n"
    ++ "\tif p == nil \x7b\n"
    ++ "\t\treturn v\n"
    ++ "\t\x7d\n\n"
    ++ "\treturn *p\n"
    ++ "\x7d\n\n"

/-- The template named from pointers func (ToXSlice and ToXMap), rendered
for one catalogue entry. -/
def renderFromPointersFunc (t : Scalar) : String :=
  "// To" ++ t.Name ++ "Slice returns a slice of " ++ t.Symbol
    ++ " values, that are dereferenced if the passed in pointer was not nil. Returns a "
    ++ t.Symbol ++ " zero value if the pointer was nil.\n"
    ++ "func To" ++ t.Name ++ "Slice(vs []*" ++ t.Symbol ++ ") []" ++ t.Symbol ++ " \x7b\n"
    ++ "\tps := make([]" ++ t.Symbol ++ ", len(vs))\n"
    ++ "\tfor i, v := range vs \x7b\n"
    ++ "\t\tps[i] = To" ++ t.Name ++ "(v)\n"
    ++ "\t\x7d\n\n"
    ++ "\treturn ps\n"
    ++ "\x7d\n\n"
    ++ "// To" ++ t.Name ++ "Map returns a map of " ++ t.Symbol
    ++ " values, that are dereferenced if the passed in pointer was not nil. The "
    ++ t.Symbol ++ " zero value is used if the pointer was nil.\n"
    ++ "func To" ++ t.Name ++ "Map(vs map[string]*" ++ t.Symbol ++ ") map[string]"
    ++ t.Symbol ++ " \x7b\n"
    ++ "\tps := make(map[string]" ++ t.Symbol ++ ", len(vs))\n"
    ++ "\tfor k, v := range vs \x7b\n"
    ++ "\t\tps[k] = To" ++ t.Name ++ "(v)\n"
    ++ "\t\x7d\n\n"
    ++ "\treturn ps\n"
    ++ "\x7d\n\n"

/-- The document of the template named scalar to pointer: the header,
then per catalogue entry the to pointer func and to pointers func
sections, in catalogue order. -/
def renderToPtrDoc (ts : Scalars) : String :=
  renderHeader ts
    ++ String.join (ts.map (fun t => renderToPointerFunc t ++ renderToPointersFunc t))

/-- The document of the template named scalar from pointer: the header,
then per catalogue entry the from pointer func and from pointers func
sections, in catalogue order. -/
def renderFromPtrDoc (ts : Scalars) : String :=
  renderHeader ts
    ++ String.join (ts.map (fun t => renderFromPointerFunc t ++ renderFromPointersFunc t))

/-- generateFile of generate.go: the named template is looked up and
rendered.  File creation is modelled as succeeding (filesystem failures
are outside the model); rendering the two defined templates never fails,
an unknown template name fails as ExecuteTemplate would. -/
def generateFile (tmplName : String) (ts : Scalars) : Except String String :=
  if tmplName = "scalar to pointer" then .ok (renderToPtrDoc ts)
  else if tmplName = "scalar from pointer" then .ok (renderFromPtrDoc ts)
  else .error ("failed to generate file, template " ++ tmplName ++ " not found")

/-- The filename-to-template map of main, as the list of its entries. -/
def fileSpecs : List (String × String) :=
  [("to_ptr.go", "scalar to pointer"), ("from_ptr.go", "scalar from pointer")]

/-- The loop of main: the Go map over filenames is iterated in an
unspecified order, so the order is a parameter; each file receives the
rendering of its template applied to the fixed catalogue. -/
def mainRun (order : List (String × String)) : List (String × Except String String) :=
  order.map (fun fs => (fs.1, generateFile fs.2 types))

/-- Modelled from the wording of the specification, for comparison with
Scalar.Name: the type name with exactly its first character upper-cased
and all remaining characters unchanged. -/
def upcaseFirstOnly (s : String) : String :=
  match s.data with
  | [] => ""
  | c :: cs => String.mk (c.toUpper :: cs)

/-- A catalogue in which two entries reference the same external module. -/
def dupImportScalars : Scalars :=
  [⟨"Time", some ⟨"time", ""⟩⟩, ⟨"Duration", some ⟨"time", ""⟩⟩]

/-- The hard-coded catalogue extended with a duplicate of its first entry. -/
def dupNameScalars : Scalars :=
  types ++ [⟨"string", none⟩]

/-- Helper: a string has length zero exactly when it is the empty string. -/
theorem str_length_eq_zero (s : String) : s.length = 0 ↔ s = "" := by
  constructor
  · intro h
    cases s with
    | mk l =>
      cases l with
      | nil => rfl
      | cons c cs => simp [String.length] at h
  · intro h
    rw [h]
    decide

/-- Helper: titleMap changes nothing when the previous character and all
remaining characters are non-separators. -/
theorem titleMap_id (l : List Char) (prev : Char) (hp : isSeparator prev = false)
    (hl : ∀ c ∈ l, isSeparator c = false) : titleMap prev l = l := by
  induction l generalizing prev with
  | nil => rfl
  | cons c cs ih =>
    have hcs : titleMap c cs = cs :=
      ih c (hl c (List.mem_cons_self c cs)) (fun d hd => hl d (List.mem_cons_of_mem c hd))
    simp [titleMap, hp, hcs]

/-- Helper: the import list contains an import once per catalogue entry
that references it, in catalogue order. -/
theorem imports_count_aux (ts : Scalars) (i : Import) :
    (Scalars.Imports ts).count i = ts.countP (fun t => t.imp == some i) := by
  induction ts with
  | nil => rfl
  | cons t rest ih =>
    cases ht : t.imp with
    | none =>
      simp [Scalars.Imports, List.filterMap_cons, ht, List.countP_cons,
        Scalars.Imports] at ih ⊢
      simp [ih]
    | some j =>
      by_cases hj : j = i
      · subst hj
        simp [Scalars.Imports, List.filterMap_cons, ht, List.count_cons,
          List.countP_cons] at ih ⊢
        simp [ih]
      · simp [Scalars.Imports, List.filterMap_cons, ht, List.count_cons,
          List.countP_cons, hj] at ih ⊢
        simp [ih, hj]

/-- C4: for every scalar type, every heap and every value v, dereferencing
the pointer produced by the generated X function yields v back:
ToX applied to the result of X is the identity (round trip). -/
theorem fromPtr_toPtr_roundtrip {α : Type} (z : α) (h : Heap α) (v : α) :
    fromPtrFn z (toPtrFn h v).1 (some (toPtrFn h v).2) = v := by
  simp [toPtrFn, fromPtrFn, Heap.alloc, Heap.read]

/-- C5: the generated ToX function returns the zero value z on a nil
pointer, and a copy of the pointee on a valid pointer; it is total (never
fails) by its type. -/
theorem fromPtr_nil_default_and_deref {α : Type} (z : α) (h : Heap α) (a : Nat) (v : α)
    (hv : h.read a = some v) :
    fromPtrFn z h none = z ∧ fromPtrFn z h (some a) = v := by
  exact ⟨rfl, by simp [fromPtrFn, hv]⟩

/-- Witness for C5 at a concrete heap holding 7 at address 0. -/
theorem fromPtr_nil_default_and_deref_witness :
    fromPtrFn 0 (⟨[7]⟩ : Heap Nat) none = 0 ∧ fromPtrFn 0 (⟨[7]⟩ : Heap Nat) (some 0) = 7 :=
  fromPtr_nil_default_and_deref 0 ⟨[7]⟩ 0 7 (by decide)

/-- C1 (failing input): generated XSlice on input [1, 2] returns the SAME
pointer at both indices, namely the address 0 of the one loop-variable
cell, and that cell ends holding the LAST element 2, so dereferencing
the entry at index 0 gives 2, not the input element 1. -/
theorem toPtrSlice_aliases_loop_var :
    (toPtrSliceFn (α := Nat) ⟨[]⟩ (some [1, 2])).2 = some [some 0, some 0] ∧
    fromPtrFn 0 (toPtrSliceFn (α := Nat) ⟨[]⟩ (some [1, 2])).1 (some 0) = 2 := by
  decide

/-- C2 (failing input): generated XMap on input mapping a to 1 and b to 2
keeps the key set but stores the SAME pointer as the value of every key,
and that one cell ends holding the value of the last iterated entry, so
the value stored under a dereferences to 2, not 1. -/
theorem toPtrMap_aliases_loop_var :
    (toPtrMapFn (α := Nat) ⟨[]⟩ (some [("a", 1), ("b", 2)])).2 =
      some [("a", some 0), ("b", some 0)] ∧
    fromPtrFn 0 (toPtrMapFn (α := Nat) ⟨[]⟩ (some [("a", 1), ("b", 2)])).1 (some 0) = 2 := by
  decide

/-- C10: every one of the four generated container helpers maps a nil
(none) input container to a present (some), empty output container,
because the output is created with make and the loop runs no iteration. -/
theorem nil_container_inputs_yield_empty_present_outputs {α : Type} [Inhabited α]
    (h : Heap α) (z : α) :
    toPtrSliceFn h none = (h, some []) ∧
    toPtrMapFn h none = (h, some []) ∧
    fromPtrSliceFn z h none = some [] ∧
    fromPtrMapFn z h none = some [] :=
  ⟨rfl, rfl, rfl, rfl⟩

/-- C3 (counterexample): a module referenced by two catalogue entries
yields two lines in the reference block, not one; the generator performs
no de-duplication. -/
theorem imports_not_deduplicated :
    importLines dupImportScalars = ["\t\"time\"\n", "\t\"time\"\n"] := by
  decide

/-- C3 (amended): each external module appears in the reference block
once per catalogue entry that references it, in catalogue order; for the
actual catalogue, in which exactly one entry (Time) carries an import,
every distinct module therefore appears exactly once. -/
theorem imports_once_per_referencing_entry :
    (∀ (ts : Scalars) (i : Import),
        (Scalars.Imports ts).count i = ts.countP (fun t => t.imp == some i)) ∧
    Scalars.Imports types = [⟨"time", ""⟩] ∧
    importLines types = ["\t\"time\"\n"] :=
  ⟨imports_count_aux, by decide, by decide⟩

/-- C6: the per-file rendered content does not depend on the unspecified
iteration order of the filename map in main: for every two orders in
which that map may be iterated, the same filename-content pairs are
produced, so rendering the same catalogue twice gives byte-identical
documents. -/
theorem render_deterministic (o1 o2 : List (String × String))
    (h1 : o1.Perm fileSpecs) (h2 : o2.Perm fileSpecs)
    (fn : String) (c : Except String String) :
    ((fn, c) ∈ mainRun o1 ↔ (fn, c) ∈ mainRun o2) := by
  constructor
  · intro hm
    exact (List.Perm.mem_iff (List.Perm.map _ h2)).mpr
      ((List.Perm.mem_iff (List.Perm.map _ h1)).mp hm)
  · intro hm
    exact (List.Perm.mem_iff (List.Perm.map _ h1)).mpr
      ((List.Perm.mem_iff (List.Perm.map _ h2)).mp hm)

/-- Witness for C6 at the two concrete iteration orders of the two-entry
filename map. -/
theorem render_deterministic_witness :
    (("to_ptr.go", generateFile "scalar to pointer" types) ∈
        mainRun [("from_ptr.go", "scalar from pointer"), ("to_ptr.go", "scalar to pointer")] ↔
      ("to_ptr.go", generateFile "scalar to pointer" types) ∈ mainRun fileSpecs) :=
  render_deterministic
    [("from_ptr.go", "scalar from pointer"), ("to_ptr.go", "scalar to pointer")]
    fileSpecs (List.Perm.swap _ _ _) (List.Perm.refl _) _ _

/-- C7 (counterexample): a catalogue holding the type name string twice
is not rejected: generation succeeds and the rendered document holds the
section defining the exported function String twice. -/
theorem duplicate_typeName_not_rejected :
    (generateFile "scalar to pointer" dupNameScalars).isOk = true ∧
    (dupNameScalars.map (fun t => renderToPointerFunc t)).count
        (renderToPointerFunc ⟨"string", none⟩) = 2 := by
  constructor
  · rfl
  · decide

/-- C7 (amended): the generator performs no construction-time validation,
generation proceeds for every catalogue; the actual hard-coded catalogue
nevertheless has pairwise-distinct, non-empty type names. -/
theorem no_validation_and_actual_catalogue_valid :
    (∀ ts : Scalars, (generateFile "scalar to pointer" ts).isOk = true ∧
        (generateFile "scalar from pointer" ts).isOk = true) ∧
    (types.map (fun t => t.ty)).Nodup ∧
    types.all (fun t => t.ty != "") = true :=
  ⟨fun _ => ⟨rfl, rfl⟩, by decide, by decide⟩

/-- C8 (counterexample): an external reference whose locator ends in a
slash has an empty referenceName, and the symbol built from it starts
with a bare dot. -/
theorem referenceName_empty_on_trailing_slash :
    Import.Package ⟨"time/", ""⟩ = "" ∧
    Scalar.Symbol ⟨"Foo", some ⟨"time/", ""⟩⟩ = ".Foo" := by
  constructor
  · decide
  · decide

/-- C8 (amended): referenceName equals the alias when the alias is
non-empty and otherwise the last slash-separated segment of the locator;
it can be empty (empty locator, or locator ending in a slash), but every
entry of the actual catalogue that declares a reference has a non-empty
referenceName. -/
theorem referenceName_alias_or_last_segment :
    (∀ i : Import,
        i.Package =
          if i.Alias ≠ "" then i.Alias
          else ((splitSlash i.Path.data).map String.mk).getLastD "") ∧
    types.all (fun t => t.imp.all (fun i => i.Package != "")) = true := by
  constructor
  · intro i
    by_cases ha : i.Alias = ""
    · by_cases hp : i.Path = ""
      · simp [Import.Package, ha, hp, str_length_eq_zero]
        decide
      · simp [Import.Package, ha, hp, str_length_eq_zero]
    · simp [Import.Package, ha, str_length_eq_zero]
  · decide

/-- C9 (counterexample): Scalar.Name upper-cases the first character of
EVERY separator-delimited word, not only the first character of the
name: on the two-word name go time it differs from the claimed rule. -/
theorem name_uppercases_every_word :
    Scalar.Name ⟨"go time", none⟩ = "Go Time" ∧
    upcaseFirstOnly "go time" = "Go time" ∧
    Scalar.Name ⟨"go time", none⟩ ≠ upcaseFirstOnly "go time" := by
  refine ⟨by decide, by decide, by decide⟩

/-- C9 (amended): Scalar.Name is strings.Title of the type name; on a
name containing no separator character this equals upper-casing exactly
the first character, and every name of the actual catalogue is of that
form, so the claimed rule holds on the actual catalogue. -/
theorem name_is_stringsTitle :
    (∀ s : String, (∀ c ∈ s.data, isSeparator c = false) →
        stringsTitle s = upcaseFirstOnly s) ∧
    types.all (fun t => Scalar.Name t == upcaseFirstOnly t.ty) = true := by
  constructor
  · intro s hs
    match hd : s.data with
    | [] =>
      simp [stringsTitle, upcaseFirstOnly, hd, titleMap]
    | c :: cs =>
      rw [hd] at hs
      simp only [stringsTitle, upcaseFirstOnly, hd, titleMap]
      rw [if_pos (by decide), titleMap_id cs c (hs c (by simp))
        (fun d hd2 => hs d (by simp [hd2]))]
  · decide

/-- Witness for C9 at the concrete separator-free name int32. -/
theorem name_is_stringsTitle_witness :
    stringsTitle "int32" = upcaseFirstOnly "int32" :=
  name_is_stringsTitle.1 "int32" (by decide)

end SmithyPtr
